import Mathlib

/-!
# Object-store helpers: `Read`, `Store`, `MoveToDir`

A shallow embedding of `src/s3.go`.  The three Go functions are thin wrappers
around calls into the AWS SDK, so the embedding takes the SDK as a parameter
(`SDK σ`, a record of handlers acting on a remote state `σ`) and threads the
remote state, the console output, the log output, the requests issued and the
deferred cancel calls explicitly through each function.

A concrete remote service (`Remote`, `mapSDK`) models buckets as finite maps
from keys to byte payloads, with fault injection, and is used for the claims
that speak about the contents of a bucket.
-/

namespace S3

/-! ## Values exchanged with the SDK -/

/-- One byte of an object payload. -/
abbrev Byte := Fin 256

/-- A Go `[]byte`, by value. -/
abbrev Bytes := List Byte

/-- A non-nil Go `error` value.  `code` is `some c` exactly when the dynamic
type implements `awserr.Error`, and then `c` is what `Code()` returns. -/
structure Error where
  msg : String
  code : Option String
deriving DecidableEq, Repr

/-- The SDK constant `request.CanceledErrorCode`. -/
def CanceledErrorCode : String := "RequestCanceled"

/-- The type `aws.Config`, reduced to the one field the program sets. -/
structure Config where
  Region : String
deriving DecidableEq, Repr

/-- The type `*session.Session`. -/
structure Session where
  Region : String
deriving DecidableEq, Repr

/-- The type `*s3.S3`, the service client built by `s3.New`. -/
structure Client where
  sess : Session
deriving DecidableEq, Repr

/-- The type `*s3manager.Downloader`, built by `s3manager.NewDownloader`. -/
structure Downloader where
  sess : Session
deriving DecidableEq, Repr

/-- The call `s3.New(sess)`. -/
def New (sess : Session) : Client := ⟨sess⟩

/-- The call `s3manager.NewDownloader(sess)`. -/
def NewDownloader (sess : Session) : Downloader := ⟨sess⟩

structure GetObjectInput where
  Bucket : String
  Key : String
deriving DecidableEq, Repr

structure PutObjectInput where
  Bucket : String
  Key : String
  Body : Bytes
deriving DecidableEq, Repr

structure CopyObjectInput where
  Bucket : String
  CopySource : String
  Key : String
deriving DecidableEq, Repr

structure DeleteObjectInput where
  Bucket : String
  Key : String
deriving DecidableEq, Repr

/-- A request handed to the SDK, recorded in the order the calls are made. -/
inductive Request where
  | get (i : GetObjectInput)
  | put (i : PutObjectInput)
  | copy (i : CopyObjectInput)
  | delete (i : DeleteObjectInput)
deriving DecidableEq, Repr

/-! ## Durations and contexts -/

/-- Two's-complement wrap of an integer into the `int64` range. -/
def wrapInt64 (x : Int) : Int := (x + 2 ^ 63) % 2 ^ 64 - 2 ^ 63

/-- The constant `time.Second`, in nanoseconds. -/
def Second : Int := 1000000000

/-- The constant `time.Minute`, in nanoseconds. -/
def Minute : Int := 60 * Second

/-- The value of `time.Duration(10) * time.Minute`, the deadline of `Store` and `MoveToDir`. -/
def timeout : Int := wrapInt64 (wrapInt64 10 * Minute)

/-- A `context.Context`: only its remaining time budget matters here. -/
structure Context where
  budget : Option Int
deriving DecidableEq, Repr

/-- A non-nil `context.CancelFunc`. -/
structure CancelFunc where
  releases : Context
deriving DecidableEq, Repr

/-- The call `context.Background()`. -/
def Background : Context := ⟨none⟩

/-- The call `context.WithTimeout(parent, d)`: the child context and its cancel function. -/
def WithTimeout (parent : Context) (d : Int) : Context × CancelFunc :=
  let child : Context :=
    match parent.budget with
    | none => ⟨some d⟩
    | some p => ⟨some (min p d)⟩
  (child, ⟨child⟩)

/-- Lines 64-70 of `Store` and 109-115 of `MoveToDir`: the context the request
runs under and the value of `cancelFn` when the `defer` is reached. -/
def deadlineContext : Context × Option CancelFunc :=
  let ctx := Background
  let cancelFn : Option CancelFunc := none
  if timeout > 0 then
    let r := WithTimeout ctx timeout
    (r.1, some r.2)
  else
    (ctx, cancelFn)

/-! ## Observable behaviour of one call -/

/-- Why a function did not return. -/
inductive Panic where
  /-- Raised by `panic(err)` inside `session.Must`. -/
  | value (e : Error)
  /-- Raised by calling a nil function value. -/
  | nilFuncCall
deriving DecidableEq, Repr

/-- How a Go function call ended. -/
inductive Exit (α : Type) where
  | returned (v : α)
  | panicked (p : Panic)
deriving DecidableEq, Repr

inductive Level where
  | Info
  | Error
deriving DecidableEq, Repr

/-- One logrus entry. -/
structure LogEntry where
  level : Level
  msg : String
  fields : List (String × List (String × String))
deriving DecidableEq, Repr

/-- Everything one call of `Read`, `Store` or `MoveToDir` does: the remote
state it leaves, what it prints, what it logs, the requests it issued (oldest
first), how many times a cancel function ran, and how it ended. -/
structure Run (σ : Type) (α : Type) where
  world : σ
  stdout : List String
  logs : List LogEntry
  calls : List Request
  cancels : Nat
  exit : Exit α

/-- The SDK as the program sees it.  Every handler may depend on and (except
for session creation) change the remote state. -/
structure SDK (σ : Type) where
  NewSession : Config → σ → Except Error Session
  /-- The handler `Download` reports the bytes it wrote into the buffer and its error. -/
  Download : Downloader → GetObjectInput → σ → (Bytes × Option Error) × σ
  PutObjectWithContext : Client → Context → PutObjectInput → σ → Option Error × σ
  CopyObjectWithContext : Client → Context → CopyObjectInput → σ → Option Error × σ
  DeleteObjectWithContext : Client → Context → DeleteObjectInput → σ → Option Error × σ

/-- The call `session.Must(sess, err)`: the session, or a panic carrying the error. -/
def Must (r : Except Error Session) : Except Panic Session :=
  match r with
  | .ok sess => .ok sess
  | .error err => .error (.value err)

/-- The effect of `defer cancelFn()` when the function body has finished with
`r`: a non-nil function runs once, a nil one panics. -/
def deferred {σ α : Type} (cancelFn : Option CancelFunc) (r : Run σ α) : Run σ α :=
  match cancelFn with
  | some _ => { r with cancels := r.cancels + 1 }
  | none => { r with exit := .panicked .nilFuncCall }

/-- The line `fmt.Println(a, b)` prints. -/
def println2 (a b : String) : String := a ++ " " ++ b ++ "\n"

/-- The test `err.(awserr.Error)` succeeds and `Code()` is the cancel code. -/
def isCanceled (err : Error) : Bool :=
  match err.code with
  | some c => c == CanceledErrorCode
  | none => false

/-! ## The three functions of `s3.go` -/

/-- The function `Read(region, bucket, filename)`, lines 20-49. -/
def Read {σ : Type} (sdk : SDK σ) (region bucket filename : String) (w : σ) :
    Run σ (Bytes × Option Error) :=
  match sdk.NewSession ⟨region⟩ w with
  | .error err =>
    { world := w, stdout := [], logs := [⟨.Error, err.msg, []⟩], calls := [],
      cancels := 0, exit := .returned ([], some err) }
  | .ok sess =>
    let downloader := NewDownloader sess
    let input : GetObjectInput := { Bucket := bucket, Key := filename }
    let r := sdk.Download downloader input w
    let buff := r.1.1
    match r.1.2 with
    | some err =>
      { world := r.2, stdout := [], logs := [⟨.Error, err.msg, []⟩],
        calls := [.get input], cancels := 0, exit := .returned ([], some err) }
    | none =>
      { world := r.2, stdout := [], logs := [], calls := [.get input],
        cancels := 0, exit := .returned (buff, none) }

/-- The function `Store(region, bucket, key, body)`, lines 52-102. -/
def Store {σ : Type} (sdk : SDK σ) (region bucket key : String) (body : Bytes) (w : σ) :
    Run σ (Option Error) :=
  match Must (sdk.NewSession ⟨region⟩ w) with
  | .error p =>
    { world := w, stdout := [], logs := [], calls := [], cancels := 0,
      exit := .panicked p }
  | .ok sess =>
    let svc := New sess
    let dc := deadlineContext
    let input : PutObjectInput := { Bucket := bucket, Key := key, Body := body }
    let r := sdk.PutObjectWithContext svc dc.1 input w
    deferred dc.2
      (match r.1 with
       | some err =>
         { world := r.2,
           stdout :=
             [if isCanceled err then "upload canceled due to timeout"
              else "Failed to upload object.\n Region: " ++ region ++ " \n Bucket: "
                ++ bucket ++ " \n"],
           logs := [], calls := [.put input], cancels := 0,
           exit := .returned (some err) }
       | none =>
         { world := r.2, stdout := [],
           logs := [⟨.Info, "Upload to S3 done",
                     [("params", [("bucket", bucket), ("key", key)])]⟩],
           calls := [.put input], cancels := 0, exit := .returned none })

/-- The `&s3.CopyObjectInput{...}` literal of lines 120-124. -/
def copyInput (oldKey newKey bucket : String) : CopyObjectInput :=
  { Bucket := bucket, CopySource := bucket ++ "/" ++ oldKey, Key := newKey }

/-- The `&s3.DeleteObjectInput{...}` literal of lines 136-139. -/
def deleteInput (oldKey bucket : String) : DeleteObjectInput :=
  { Bucket := bucket, Key := oldKey }

/-- The function `MoveToDir(oldKey, newKey, bucket, sess, svc)`, lines 105-144. -/
def MoveToDir {σ : Type} (sdk : SDK σ) (oldKey newKey bucket : String)
    (_sess : Session) (svc : Client) (w : σ) : Run σ Unit :=
  let dc := deadlineContext
  let copyInput := copyInput oldKey newKey bucket
  let r := sdk.CopyObjectWithContext svc dc.1 copyInput w
  deferred dc.2
    (match r.1 with
     | some err =>
       { world := r.2,
         stdout :=
           ["=== Could not copy file ===\n",
            println2 "OldKey: \t\t" (bucket ++ "/" ++ oldKey),
            println2 "nnewKey: \t" newKey,
            println2 "bucket: \t\t" bucket,
            println2 "Error: \t\t" err.msg,
            "===\n"],
         logs := [], calls := [.copy copyInput], cancels := 0,
         exit := .returned () }
     | none =>
       let deleteInput := deleteInput oldKey bucket
       let d := sdk.DeleteObjectWithContext svc dc.1 deleteInput r.2
       match d.1 with
       | some _ =>
         { world := d.2,
           stdout := ["File " ++ oldKey ++ " moved to " ++ newKey ++ ", but not deleted"],
           logs := [], calls := [.copy copyInput, .delete deleteInput], cancels := 0,
           exit := .returned () }
       | none =>
         { world := d.2, stdout := [], logs := [],
           calls := [.copy copyInput, .delete deleteInput], cancels := 0,
           exit := .returned () })

/-! ## A remote service with buckets as maps -/

/-- The state of the modelled service: the objects of every bucket, the regions
for which no session can be created, and the outcomes injected into the
requests to come (`some e` makes the next request fail with `e`). -/
structure Remote where
  objects : String → String → Option Bytes
  sessionFault : String → Option Error
  faults : List (Option Error)

def noSuchKey : Error := ⟨"NoSuchKey: The specified key does not exist.", some "NoSuchKey"⟩

def invalidCopySource : Error :=
  ⟨"InvalidArgument: Copy Source must mention the source bucket and key", some "InvalidArgument"⟩

/-- The fault injected into the next request, if any. -/
def Remote.nextFault (w : Remote) : Option Error :=
  match w.faults with
  | some e :: _ => some e
  | _ => none

/-- The state once the next injected outcome has been consumed. -/
def Remote.consume (w : Remote) : Remote := { w with faults := w.faults.tail }

/-- Map update at `(bucket, key)`. -/
def Remote.set (w : Remote) (bucket key : String) (v : Option Bytes) : Remote :=
  { w with objects := fun b k => if b = bucket ∧ k = key then v else w.objects b k }

/-- The value of `dropLeading p s` is `some r` when `s = p ++ r`, else `none`. -/
def dropLeading : List Char → List Char → Option (List Char)
  | [], rest => some rest
  | _ :: _, [] => none
  | p :: ps, c :: cs => if p = c then dropLeading ps cs else none

/-- The key a copy source of the form `bucket/key` names inside `bucket`. -/
def sourceKey (bucket copySource : String) : Option String :=
  (dropLeading (bucket ++ "/").data copySource.data).map String.mk

def mapNewSession (cfg : Config) (w : Remote) : Except Error Session :=
  match w.sessionFault cfg.Region with
  | some e => .error e
  | none => .ok ⟨cfg.Region⟩

/-- Get-object: the stored value, written whole into the buffer. -/
def mapDownload (i : GetObjectInput) (w : Remote) : (Bytes × Option Error) × Remote :=
  match w.nextFault with
  | some e => (([], some e), w.consume)
  | none =>
    match w.objects i.Bucket i.Key with
    | some v => ((v, none), w.consume)
    | none => (([], some noSuchKey), w.consume)

/-- Put-object: overwrite. -/
def mapPut (i : PutObjectInput) (w : Remote) : Option Error × Remote :=
  match w.nextFault with
  | some e => (some e, w.consume)
  | none => (none, w.consume.set i.Bucket i.Key (some i.Body))

/-- Copy-object within one bucket: the destination takes the source payload. -/
def mapCopy (i : CopyObjectInput) (w : Remote) : Option Error × Remote :=
  match w.nextFault with
  | some e => (some e, w.consume)
  | none =>
    match sourceKey i.Bucket i.CopySource with
    | none => (some invalidCopySource, w.consume)
    | some src =>
      match w.objects i.Bucket src with
      | none => (some noSuchKey, w.consume)
      | some v => (none, w.consume.set i.Bucket i.Key (some v))

/-- Delete-object: erase. -/
def mapDelete (i : DeleteObjectInput) (w : Remote) : Option Error × Remote :=
  match w.nextFault with
  | some e => (some e, w.consume)
  | none => (none, w.consume.set i.Bucket i.Key none)

/-- The modelled service behind the SDK interface. -/
def mapSDK : SDK Remote where
  NewSession := mapNewSession
  Download := fun _ i w => mapDownload i w
  PutObjectWithContext := fun _ _ i w => mapPut i w
  CopyObjectWithContext := fun _ _ i w => mapCopy i w
  DeleteObjectWithContext := fun _ _ i w => mapDelete i w

/-! ## Sample inputs -/

def sampleBody : Bytes := [104, 105]

def sampleBody2 : Bytes := [1, 2, 3]

def sampleSession : Session := ⟨"eu-north-1"⟩

def sampleError : Error := ⟨"InternalError: injected", some "InternalError"⟩

/-- A bucket `b` holding `A ↦ sampleBody`, no faults. -/
def sampleRemote : Remote where
  objects := fun b k => if b = "b" ∧ k = "A" then some sampleBody else none
  sessionFault := fun _ => none
  faults := []

/-- As `sampleRemote`, but the second request fails. -/
def sampleRemoteDeleteFails : Remote := { sampleRemote with faults := [none, some sampleError] }

/-- As `sampleRemote`, but the first request fails with a service error. -/
def sampleRemoteFirstFails : Remote := { sampleRemote with faults := [some sampleError] }

/-- The error the SDK reports when the context of a request was canceled. -/
def sampleCanceled : Error := ⟨"RequestCanceled: request context canceled", some "RequestCanceled"⟩

/-- As `sampleRemote`, but the first request is canceled by its deadline. -/
def sampleRemoteFirstCanceled : Remote := { sampleRemote with faults := [some sampleCanceled] }

/-- As `sampleRemote`, but the third request fails. -/
def sampleRemoteThirdFails : Remote :=
  { sampleRemote with faults := [none, none, some sampleError] }

/-- As `sampleRemote`, but no session can be created for any region. -/
def sampleRemoteNoSession : Remote := { sampleRemote with sessionFault := fun _ => some sampleError }

end S3

namespace S3

/-! ## Basic facts -/

theorem timeout_pos : timeout > 0 := by decide

theorem deadlineContext_eq :
    deadlineContext = ((WithTimeout Background timeout).1, some (WithTimeout Background timeout).2) := by
  unfold deadlineContext
  simp [timeout_pos]

theorem dropLeading_append (p r : List Char) : dropLeading p (p ++ r) = some r := by
  induction p with
  | nil => cases r <;> rfl
  | cons c cs ih => simp [dropLeading, ih]

theorem sourceKey_copySource (bucket key : String) :
    sourceKey bucket (bucket ++ "/" ++ key) = some key := by
  unfold sourceKey
  have h : (bucket ++ "/" ++ key).data = (bucket ++ "/").data ++ key.data := by
    simp [String.data_append]
  rw [h, dropLeading_append]
  rfl

theorem mapCopy_fault (i : CopyObjectInput) (w : Remote) (e : Error)
    (h : w.nextFault = some e) : mapCopy i w = (some e, w.consume) := by
  simp [mapCopy, h]

theorem mapCopy_ok (oldKey newKey bucket : String) (w : Remote) (v : Bytes)
    (hf : w.nextFault = none) (hv : w.objects bucket oldKey = some v) :
    mapCopy (copyInput oldKey newKey bucket) w = (none, w.consume.set bucket newKey (some v)) := by
  simp [mapCopy, hf, copyInput, sourceKey_copySource, hv]

theorem mapCopy_absent (oldKey newKey bucket : String) (w : Remote)
    (hf : w.nextFault = none) (hv : w.objects bucket oldKey = none) :
    mapCopy (copyInput oldKey newKey bucket) w = (some noSuchKey, w.consume) := by
  simp [mapCopy, hf, copyInput, sourceKey_copySource, hv]

/-- A copy that reports success found its source and no injected fault. -/
theorem mapCopy_success (oldKey newKey bucket : String) (w : Remote)
    (h : (mapCopy (copyInput oldKey newKey bucket) w).1 = none) :
    w.nextFault = none ∧ ∃ v, w.objects bucket oldKey = some v := by
  cases hf : w.nextFault with
  | some e => rw [mapCopy_fault _ _ e hf] at h; simp at h
  | none =>
    cases hv : w.objects bucket oldKey with
    | none => rw [mapCopy_absent _ _ _ _ hf hv] at h; simp at h
    | some v => exact ⟨rfl, v, rfl⟩

/-- A failing copy leaves every bucket as it was. -/
theorem mapCopy_error_objects (oldKey newKey bucket : String) (w : Remote)
    (h : (mapCopy (copyInput oldKey newKey bucket) w).1 ≠ none) :
    (mapCopy (copyInput oldKey newKey bucket) w).2.objects = w.objects := by
  cases hf : w.nextFault with
  | some e => rw [mapCopy_fault _ _ e hf]; rfl
  | none =>
    cases hv : w.objects bucket oldKey with
    | none => rw [mapCopy_absent _ _ _ _ hf hv]; rfl
    | some v => rw [mapCopy_ok _ _ _ _ v hf hv] at h; simp at h

theorem mapDelete_success (i : DeleteObjectInput) (w : Remote) (h : (mapDelete i w).1 = none) :
    mapDelete i w = (none, w.consume.set i.Bucket i.Key none) := by
  unfold mapDelete at h ⊢
  cases hf : w.nextFault with
  | some e => simp [hf] at h
  | none => simp

theorem mapDelete_error (i : DeleteObjectInput) (w : Remote) (e : Error)
    (h : (mapDelete i w).1 = some e) : (mapDelete i w).2.objects = w.objects := by
  unfold mapDelete at h ⊢
  cases hf : w.nextFault with
  | some e => rfl
  | none => simp [hf] at h

theorem mapPut_success (i : PutObjectInput) (w : Remote) (h : (mapPut i w).1 = none) :
    mapPut i w = (none, w.consume.set i.Bucket i.Key (some i.Body)) := by
  unfold mapPut at h ⊢
  cases hf : w.nextFault with
  | some e => simp [hf] at h
  | none => simp

/-- In the modelled service, a `Store` that returned nil created its session and
left the bucket updated at the key. -/
theorem Store_success_model (region bucket key : String) (body : Bytes) (w : Remote)
    (h : (Store mapSDK region bucket key body w).exit = .returned none) :
    w.sessionFault region = none ∧
    (Store mapSDK region bucket key body w).world = w.consume.set bucket key (some body) := by
  unfold Store at h ⊢
  simp only [mapSDK, mapNewSession] at h ⊢
  cases hs : w.sessionFault region with
  | some e => simp [hs, Must] at h
  | none =>
    simp only [hs, Must, deadlineContext_eq, deferred] at h ⊢
    cases hp : (mapPut { Bucket := bucket, Key := key, Body := body } w).1 with
    | some e => simp [hp] at h
    | none =>
      have hput := mapPut_success _ _ hp
      simp [hput]

/-- In the modelled service, `Read` of a stored key with a session and no
injected fault returns the stored payload. -/
theorem Read_present_model (region bucket key : String) (body : Bytes) (w : Remote)
    (hs : w.sessionFault region = none) (hf : w.nextFault = none)
    (hv : w.objects bucket key = some body) :
    (Read mapSDK region bucket key w).exit = .returned (body, none) := by
  unfold Read
  simp [mapSDK, mapNewSession, hs, mapDownload, hf, hv]

/-- What `MoveToDir` leaves behind, in terms of the two SDK calls. -/
theorem MoveToDir_unfold {σ : Type} (sdk : SDK σ) (oldKey newKey bucket : String)
    (sess : Session) (svc : Client) (w : σ) :
    MoveToDir sdk oldKey newKey bucket sess svc w =
      deferred deadlineContext.2
        (match (sdk.CopyObjectWithContext svc deadlineContext.1
                  (copyInput oldKey newKey bucket) w).1 with
         | some err =>
           { world := (sdk.CopyObjectWithContext svc deadlineContext.1
                         (copyInput oldKey newKey bucket) w).2,
             stdout :=
               ["=== Could not copy file ===\n",
                println2 "OldKey: \t\t" (bucket ++ "/" ++ oldKey),
                println2 "nnewKey: \t" newKey,
                println2 "bucket: \t\t" bucket,
                println2 "Error: \t\t" err.msg,
                "===\n"],
             logs := [], calls := [.copy (copyInput oldKey newKey bucket)], cancels := 0,
             exit := .returned () }
         | none =>
           match (sdk.DeleteObjectWithContext svc deadlineContext.1 (deleteInput oldKey bucket)
                    (sdk.CopyObjectWithContext svc deadlineContext.1
                       (copyInput oldKey newKey bucket) w).2).1 with
           | some _ =>
             { world := (sdk.DeleteObjectWithContext svc deadlineContext.1
                           (deleteInput oldKey bucket)
                           (sdk.CopyObjectWithContext svc deadlineContext.1
                              (copyInput oldKey newKey bucket) w).2).2,
               stdout := ["File " ++ oldKey ++ " moved to " ++ newKey ++ ", but not deleted"],
               logs := [],
               calls := [.copy (copyInput oldKey newKey bucket),
                         .delete (deleteInput oldKey bucket)],
               cancels := 0, exit := .returned () }
           | none =>
             { world := (sdk.DeleteObjectWithContext svc deadlineContext.1
                           (deleteInput oldKey bucket)
                           (sdk.CopyObjectWithContext svc deadlineContext.1
                              (copyInput oldKey newKey bucket) w).2).2,
               stdout := [], logs := [],
               calls := [.copy (copyInput oldKey newKey bucket),
                         .delete (deleteInput oldKey bucket)],
               cancels := 0, exit := .returned () }) := rfl

/-! ## Requests issued by `MoveToDir` -/

/-- C8: the copy request of `MoveToDir` has `Bucket = bucket`, `Key = newKey` and
`CopySource` the verbatim concatenation of `bucket`, a slash and `oldKey`; the
requests issued are that copy first, followed by the delete of `(bucket, oldKey)`
exactly when the copy reported no error, and nothing else. -/
theorem MoveToDir_requests {σ : Type} (sdk : SDK σ) (oldKey newKey bucket : String)
    (sess : Session) (svc : Client) (w : σ) :
    (copyInput oldKey newKey bucket).CopySource.data = bucket.data ++ '/' :: oldKey.data ∧
    (MoveToDir sdk oldKey newKey bucket sess svc w).calls =
      Request.copy { Bucket := bucket, CopySource := bucket ++ "/" ++ oldKey, Key := newKey } ::
        (match (sdk.CopyObjectWithContext svc deadlineContext.1
                  { Bucket := bucket, CopySource := bucket ++ "/" ++ oldKey, Key := newKey } w).1 with
         | none => [Request.delete { Bucket := bucket, Key := oldKey }]
         | some _ => []) ∧
    (MoveToDir sdk oldKey newKey bucket sess svc w).calls.length ≤ 2 := by
  have hcalls : (MoveToDir sdk oldKey newKey bucket sess svc w).calls =
      Request.copy { Bucket := bucket, CopySource := bucket ++ "/" ++ oldKey, Key := newKey } ::
        (match (sdk.CopyObjectWithContext svc deadlineContext.1
                  { Bucket := bucket, CopySource := bucket ++ "/" ++ oldKey, Key := newKey } w).1 with
         | none => [Request.delete { Bucket := bucket, Key := oldKey }]
         | some _ => []) := by
    rw [MoveToDir_unfold, deadlineContext_eq]
    simp only [deferred, copyInput, deleteInput]
    split <;> [skip; split] <;> simp_all
  refine ⟨?_, hcalls, ?_⟩
  · simp [copyInput, String.data_append]
  · rw [hcalls]
    split <;> simp

/-! ## The deadline and its release -/

/-- C9: the deadline is 600 seconds and positive, so `cancelFn` is non-nil when the
`defer` is reached; in `Store` the cancel function runs exactly once whenever the
session was created (and never when `session.Must` panics before the deadline
exists), in `MoveToDir` it runs exactly once on every path, and neither function
ends by calling a nil function. -/
theorem deadline_released_once {σ : Type} (sdk : SDK σ) (region bucket key : String)
    (body : Bytes) (oldKey newKey : String) (sess : Session) (svc : Client) (w : σ) :
    timeout = 600 * Second ∧ timeout > 0 ∧
    deadlineContext.2 = some (WithTimeout Background timeout).2 ∧
    (Store sdk region bucket key body w).cancels =
      (match sdk.NewSession ⟨region⟩ w with
       | .ok _ => 1
       | .error _ => 0) ∧
    (Store sdk region bucket key body w).exit ≠ .panicked .nilFuncCall ∧
    (MoveToDir sdk oldKey newKey bucket sess svc w).cancels = 1 ∧
    (MoveToDir sdk oldKey newKey bucket sess svc w).exit = .returned () := by
  refine ⟨by decide, timeout_pos, by rw [deadlineContext_eq], ?_, ?_, ?_, ?_⟩
  · unfold Store
    cases hs : sdk.NewSession ⟨region⟩ w with
    | error e => simp [Must]
    | ok s =>
      simp only [Must, deadlineContext_eq, deferred]
      split <;> simp
  · unfold Store
    cases hs : sdk.NewSession ⟨region⟩ w with
    | error e => simp [Must]
    | ok s =>
      simp only [Must, deadlineContext_eq, deferred]
      split <;> simp
  · rw [MoveToDir_unfold, deadlineContext_eq]
    simp only [deferred]
    split <;> [skip; split] <;> simp
  · rw [MoveToDir_unfold, deadlineContext_eq]
    simp only [deferred]
    split <;> [skip; split] <;> simp

/-! ## Results of `Read` and `Store` -/

/-- C4: `Read` returns the empty slice with the underlying error when session
creation or the download fails, and the whole buffer with a nil error otherwise;
so it never returns a non-empty payload next to a non-nil error. -/
theorem Read_result {σ : Type} (sdk : SDK σ) (region bucket filename : String) (w : σ) :
    ∃ payload err, (Read sdk region bucket filename w).exit = .returned (payload, err) ∧
      (payload = [] ∨ err = none) ∧
      (payload, err) =
        (match sdk.NewSession ⟨region⟩ w with
         | .error e => ([], some e)
         | .ok s =>
           match (sdk.Download (NewDownloader s) { Bucket := bucket, Key := filename } w).1 with
           | (_, some e) => ([], some e)
           | (buff, none) => (buff, none)) := by
  unfold Read
  cases hs : sdk.NewSession ⟨region⟩ w with
  | error e => exact ⟨[], some e, rfl, Or.inl rfl, rfl⟩
  | ok s =>
    rcases hd : (sdk.Download (NewDownloader s) { Bucket := bucket, Key := filename } w).1
      with ⟨buff, _ | e⟩
    · exact ⟨buff, none, by simp [hd], Or.inr rfl, by simp [hd]⟩
    · exact ⟨[], some e, by simp [hd], Or.inl rfl, by simp [hd]⟩

/-- C5: once the session exists, `Store` returns exactly what the put-object call
returned as its error (so nil if and only if the call reported none); a cancel
error and any other error differ only in the line printed. -/
theorem Store_returns_put_error {σ : Type} (sdk : SDK σ) (region bucket key : String)
    (body : Bytes) (w : σ) (sess : Session)
    (hsess : sdk.NewSession ⟨region⟩ w = .ok sess) :
    (Store sdk region bucket key body w).exit =
      .returned (sdk.PutObjectWithContext (New sess) deadlineContext.1
        { Bucket := bucket, Key := key, Body := body } w).1 ∧
    ((Store sdk region bucket key body w).exit = .returned none ↔
      (sdk.PutObjectWithContext (New sess) deadlineContext.1
        { Bucket := bucket, Key := key, Body := body } w).1 = none) ∧
    (Store sdk region bucket key body w).world =
      (sdk.PutObjectWithContext (New sess) deadlineContext.1
        { Bucket := bucket, Key := key, Body := body } w).2 ∧
    (Store sdk region bucket key body w).calls =
      [Request.put { Bucket := bucket, Key := key, Body := body }] ∧
    (Store sdk region bucket key body w).cancels = 1 ∧
    (Store sdk region bucket key body w).logs =
      (match (sdk.PutObjectWithContext (New sess) deadlineContext.1
                { Bucket := bucket, Key := key, Body := body } w).1 with
       | none => [⟨.Info, "Upload to S3 done", [("params", [("bucket", bucket), ("key", key)])]⟩]
       | some _ => []) ∧
    (Store sdk region bucket key body w).stdout =
      (match (sdk.PutObjectWithContext (New sess) deadlineContext.1
                { Bucket := bucket, Key := key, Body := body } w).1 with
       | none => []
       | some err =>
         [if isCanceled err then "upload canceled due to timeout"
          else "Failed to upload object.\n Region: " ++ region ++ " \n Bucket: "
            ++ bucket ++ " \n"]) := by
  unfold Store
  simp only [hsess, Must]
  rw [deadlineContext_eq]
  simp only [deferred]
  cases hp : (sdk.PutObjectWithContext (New sess) (WithTimeout Background timeout).1
        { Bucket := bucket, Key := key, Body := body } w).1 <;> simp

/-- C5, at concrete inputs: a put that the modelled service fails with a service
error, and one it fails with the cancel code; `Store` returns each error
unchanged, and only the printed line tells them apart. -/
theorem Store_returns_put_error_witness :
    (mapSDK.NewSession ⟨"eu-north-1"⟩ sampleRemoteFirstFails = .ok sampleSession ∧
     (Store mapSDK "eu-north-1" "b" "k" sampleBody sampleRemoteFirstFails).exit =
       .returned (some sampleError) ∧
     (Store mapSDK "eu-north-1" "b" "k" sampleBody sampleRemoteFirstFails).stdout =
       ["Failed to upload object.\n Region: eu-north-1 \n Bucket: b \n"]) ∧
    (mapSDK.NewSession ⟨"eu-north-1"⟩ sampleRemoteFirstCanceled = .ok sampleSession ∧
     (Store mapSDK "eu-north-1" "b" "k" sampleBody sampleRemoteFirstCanceled).exit =
       .returned (some sampleCanceled) ∧
     (Store mapSDK "eu-north-1" "b" "k" sampleBody sampleRemoteFirstCanceled).stdout =
       ["upload canceled due to timeout"]) ∧
    (mapSDK.NewSession ⟨"eu-north-1"⟩ sampleRemote = .ok sampleSession ∧
     (Store mapSDK "eu-north-1" "b" "k" sampleBody sampleRemote).exit = .returned none) :=
  have hfail := Store_returns_put_error mapSDK "eu-north-1" "b" "k" sampleBody
    sampleRemoteFirstFails sampleSession rfl
  have hcancel := Store_returns_put_error mapSDK "eu-north-1" "b" "k" sampleBody
    sampleRemoteFirstCanceled sampleSession rfl
  have hok := Store_returns_put_error mapSDK "eu-north-1" "b" "k" sampleBody
    sampleRemote sampleSession rfl
  ⟨⟨rfl, hfail.1.trans (by decide), hfail.2.2.2.2.2.2.trans (by decide)⟩,
   ⟨rfl, hcancel.1.trans (by decide), hcancel.2.2.2.2.2.2.trans (by decide)⟩,
   ⟨rfl, hok.1.trans (by decide)⟩⟩

/-- C6: the claim holds for `Read` and fails for `Store` on one and the same
input.  When no session can be created, `Read` returns the session error to its
caller, while `Store` panics inside `session.Must` and returns nothing. -/
theorem Store_session_failure_panics :
    mapSDK.NewSession ⟨"eu-north-1"⟩ sampleRemoteNoSession = .error sampleError ∧
    (Read mapSDK "eu-north-1" "b" "k" sampleRemoteNoSession).exit =
      .returned ([], some sampleError) ∧
    (Store mapSDK "eu-north-1" "b" "k" sampleBody sampleRemoteNoSession).exit =
      .panicked (.value sampleError) ∧
    ¬ ∃ v, (Store mapSDK "eu-north-1" "b" "k" sampleBody sampleRemoteNoSession).exit =
      .returned v := by
  refine ⟨rfl, rfl, rfl, ?_⟩
  rintro ⟨v, hv⟩
  have h : (Store mapSDK "eu-north-1" "b" "k" sampleBody sampleRemoteNoSession).exit =
      .panicked (.value sampleError) := rfl
  rw [h] at hv
  cases hv

/-! ## `MoveToDir` on the modelled bucket -/

/-- C1: when `oldKey` is present, `newKey` differs from it and both the copy and
the delete call of `MoveToDir` succeed, then afterwards `newKey` holds the payload
`oldKey` held, `oldKey` is absent, and every other key of every bucket is as before. -/
theorem MoveToDir_moves (oldKey newKey bucket : String) (sess : Session) (svc : Client)
    (w : Remote) (v : Bytes)
    (hpresent : w.objects bucket oldKey = some v)
    (hne : newKey ≠ oldKey)
    (hcopy : (mapSDK.CopyObjectWithContext svc deadlineContext.1
                (copyInput oldKey newKey bucket) w).1 = none)
    (hdelete : (mapSDK.DeleteObjectWithContext svc deadlineContext.1
                  (deleteInput oldKey bucket)
                  (mapSDK.CopyObjectWithContext svc deadlineContext.1
                    (copyInput oldKey newKey bucket) w).2).1 = none) :
    (MoveToDir mapSDK oldKey newKey bucket sess svc w).world.objects bucket newKey = some v ∧
    (MoveToDir mapSDK oldKey newKey bucket sess svc w).world.objects bucket oldKey = none ∧
    (∀ b k, ¬ (b = bucket ∧ k = newKey) → ¬ (b = bucket ∧ k = oldKey) →
      (MoveToDir mapSDK oldKey newKey bucket sess svc w).world.objects b k = w.objects b k) ∧
    (MoveToDir mapSDK oldKey newKey bucket sess svc w).exit = .returned () ∧
    (MoveToDir mapSDK oldKey newKey bucket sess svc w).stdout = [] := by
  have hw : (MoveToDir mapSDK oldKey newKey bucket sess svc w).world =
      ((w.consume.set bucket newKey (some v)).consume.set bucket oldKey none) ∧
      (MoveToDir mapSDK oldKey newKey bucket sess svc w).exit = .returned () ∧
      (MoveToDir mapSDK oldKey newKey bucket sess svc w).stdout = [] := by
    rw [MoveToDir_unfold, deadlineContext_eq]
    rw [deadlineContext_eq] at hcopy hdelete
    simp only [mapSDK] at hcopy hdelete ⊢
    have hc := mapCopy_ok oldKey newKey bucket w v (mapCopy_success _ _ _ _ hcopy).1 hpresent
    rw [hc] at hdelete ⊢
    have hd := mapDelete_success _ _ hdelete
    rw [hd]
    simp [deferred, deleteInput]
  obtain ⟨h1, h2, h3⟩ := hw
  rw [h1]
  refine ⟨?_, ?_, ?_, h2, h3⟩
  · simp [Remote.set, Remote.consume, hne]
  · simp [Remote.set, Remote.consume]
  · intro b k hn ho
    simp [Remote.set, Remote.consume, hn, ho]

/-- C1, at a concrete input: moving `A` to `B` in the sample bucket. -/
theorem MoveToDir_moves_witness :
    (MoveToDir mapSDK "A" "B" "b" sampleSession (New sampleSession) sampleRemote).world.objects
        "b" "B" = some sampleBody ∧
    (MoveToDir mapSDK "A" "B" "b" sampleSession (New sampleSession) sampleRemote).world.objects
        "b" "A" = none :=
  have h := MoveToDir_moves "A" "B" "b" sampleSession (New sampleSession) sampleRemote
    sampleBody (by decide) (by decide) (by decide) (by decide)
  ⟨h.1, h.2.1⟩

/-- C2: when the copy call of `MoveToDir` returns an error, as it does whenever
`oldKey` is absent, the only request issued is that copy (no delete), the call
returns, and every bucket holds what it held before. -/
theorem MoveToDir_copy_failure (oldKey newKey bucket : String) (sess : Session)
    (svc : Client) (w : Remote)
    (h : (mapSDK.CopyObjectWithContext svc deadlineContext.1
            (copyInput oldKey newKey bucket) w).1 ≠ none ∨ w.objects bucket oldKey = none) :
    (mapSDK.CopyObjectWithContext svc deadlineContext.1
       (copyInput oldKey newKey bucket) w).1 ≠ none ∧
    (MoveToDir mapSDK oldKey newKey bucket sess svc w).calls =
      [Request.copy (copyInput oldKey newKey bucket)] ∧
    (MoveToDir mapSDK oldKey newKey bucket sess svc w).world.objects = w.objects ∧
    (MoveToDir mapSDK oldKey newKey bucket sess svc w).exit = .returned () := by
  have herr : (mapCopy (copyInput oldKey newKey bucket) w).1 ≠ none := by
    rcases h with h | h
    · exact h
    · intro hc
      obtain ⟨_, v, hv⟩ := mapCopy_success _ _ _ _ hc
      rw [h] at hv
      cases hv
  have hobj := mapCopy_error_objects oldKey newKey bucket w herr
  refine ⟨herr, ?_⟩
  rw [MoveToDir_unfold, deadlineContext_eq]
  simp only [mapSDK]
  cases hc : (mapCopy (copyInput oldKey newKey bucket) w).1 with
  | none => exact absurd hc herr
  | some e => simp [deferred, hobj]

/-- C2, at a concrete input: moving the absent key `Z` in the sample bucket. -/
theorem MoveToDir_copy_failure_witness :
    sampleRemote.objects "b" "Z" = none ∧
    (MoveToDir mapSDK "Z" "B" "b" sampleSession (New sampleSession) sampleRemote).calls =
      [Request.copy (copyInput "Z" "B" "b")] ∧
    (MoveToDir mapSDK "Z" "B" "b" sampleSession (New sampleSession) sampleRemote).world.objects =
      sampleRemote.objects :=
  have h := MoveToDir_copy_failure "Z" "B" "b" sampleSession (New sampleSession) sampleRemote
    (Or.inr (by decide))
  ⟨by decide, h.2.1, h.2.2.1⟩

/-- C3: when `oldKey` is present, the copy call succeeds and the delete call fails,
then afterwards `oldKey` and `newKey` both hold the payload `oldKey` held; the
call returns (it has no error result) and prints only the line saying the file
was moved but not deleted. -/
theorem MoveToDir_delete_failure (oldKey newKey bucket : String) (sess : Session)
    (svc : Client) (w : Remote) (v : Bytes) (e : Error)
    (hpresent : w.objects bucket oldKey = some v)
    (hcopy : (mapSDK.CopyObjectWithContext svc deadlineContext.1
                (copyInput oldKey newKey bucket) w).1 = none)
    (hdelete : (mapSDK.DeleteObjectWithContext svc deadlineContext.1
                  (deleteInput oldKey bucket)
                  (mapSDK.CopyObjectWithContext svc deadlineContext.1
                    (copyInput oldKey newKey bucket) w).2).1 = some e) :
    (MoveToDir mapSDK oldKey newKey bucket sess svc w).world.objects bucket oldKey = some v ∧
    (MoveToDir mapSDK oldKey newKey bucket sess svc w).world.objects bucket newKey = some v ∧
    (MoveToDir mapSDK oldKey newKey bucket sess svc w).exit = .returned () ∧
    (MoveToDir mapSDK oldKey newKey bucket sess svc w).stdout =
      ["File " ++ oldKey ++ " moved to " ++ newKey ++ ", but not deleted"] := by
  rw [MoveToDir_unfold, deadlineContext_eq]
  rw [deadlineContext_eq] at hcopy hdelete
  simp only [mapSDK] at hcopy hdelete ⊢
  have hc := mapCopy_ok oldKey newKey bucket w v (mapCopy_success _ _ _ _ hcopy).1 hpresent
  rw [hc] at hdelete ⊢
  have hobj := mapDelete_error _ _ e hdelete
  have hold : (w.consume.set bucket newKey (some v)).objects bucket oldKey = some v := by
    by_cases hk : oldKey = newKey
    · simp [Remote.set, Remote.consume, hk]
    · simp [Remote.set, Remote.consume, hk, hpresent]
  have hnew : (w.consume.set bucket newKey (some v)).objects bucket newKey = some v := by
    simp [Remote.set, Remote.consume]
  simp [hdelete, deferred, hobj, hold, hnew]

/-- C3, at a concrete input: moving `A` to `B` while the delete is made to fail. -/
theorem MoveToDir_delete_failure_witness :
    (MoveToDir mapSDK "A" "B" "b" sampleSession (New sampleSession)
        sampleRemoteDeleteFails).world.objects "b" "A" = some sampleBody ∧
    (MoveToDir mapSDK "A" "B" "b" sampleSession (New sampleSession)
        sampleRemoteDeleteFails).world.objects "b" "B" = some sampleBody :=
  have h := MoveToDir_delete_failure "A" "B" "b" sampleSession (New sampleSession)
    sampleRemoteDeleteFails sampleBody sampleError (by decide) (by decide) (by decide)
  ⟨h.1, h.2.1⟩

/-- C10: `MoveToDir` does not compare its keys; with `oldKey = newKey`, a copy that
reports success and a delete that succeeds, the object that was there before the
call is absent after it. -/
theorem MoveToDir_same_key_loses_object (key bucket : String) (sess : Session)
    (svc : Client) (w : Remote)
    (hcopy : (mapSDK.CopyObjectWithContext svc deadlineContext.1
                (copyInput key key bucket) w).1 = none)
    (hdelete : (mapSDK.DeleteObjectWithContext svc deadlineContext.1
                  (deleteInput key bucket)
                  (mapSDK.CopyObjectWithContext svc deadlineContext.1
                    (copyInput key key bucket) w).2).1 = none) :
    (∃ v, w.objects bucket key = some v) ∧
    (MoveToDir mapSDK key key bucket sess svc w).calls =
      [Request.copy { Bucket := bucket, CopySource := bucket ++ "/" ++ key, Key := key },
       Request.delete { Bucket := bucket, Key := key }] ∧
    (MoveToDir mapSDK key key bucket sess svc w).world.objects bucket key = none := by
  have hsrc : ∃ v, w.objects bucket key = some v := by
    rw [deadlineContext_eq] at hcopy
    exact (mapCopy_success _ _ _ _ hcopy).2
  obtain ⟨v, hv⟩ := hsrc
  refine ⟨⟨v, hv⟩, ?_⟩
  rw [MoveToDir_unfold, deadlineContext_eq]
  rw [deadlineContext_eq] at hcopy hdelete
  simp only [mapSDK] at hcopy hdelete ⊢
  have hc := mapCopy_ok key key bucket w v (mapCopy_success _ _ _ _ hcopy).1 hv
  rw [hc] at hdelete ⊢
  have hd := mapDelete_success _ _ hdelete
  rw [hd]
  simp [deferred, deleteInput, copyInput, Remote.set, Remote.consume]

/-- C10, at a concrete input: moving `A` onto itself in the sample bucket. -/
theorem MoveToDir_same_key_loses_object_witness :
    sampleRemote.objects "b" "A" = some sampleBody ∧
    (MoveToDir mapSDK "A" "A" "b" sampleSession (New sampleSession) sampleRemote).world.objects
        "b" "A" = none :=
  ⟨by decide,
   (MoveToDir_same_key_loses_object "A" "b" sampleSession (New sampleSession) sampleRemote
      (by decide) (by decide)).2.2⟩

/-! ## `Store` followed by `Read` on the modelled service -/

/-- C7: after a `Store` that returned nil, a `Read` of the same region, bucket and
key that meets no injected fault returns exactly the stored body with a nil
error, for every body including the empty one; and whenever a second `Store` of
any other body then succeeds (issued right away or after that `Read`), the next
such `Read` returns the newer body. -/
theorem Store_Read_roundtrip (region bucket key : String) (body : Bytes) (w : Remote)
    (hstore : (Store mapSDK region bucket key body w).exit = .returned none)
    (hfault : (Store mapSDK region bucket key body w).world.nextFault = none) :
    (Store mapSDK region bucket key body w).world.objects bucket key = some body ∧
    (Read mapSDK region bucket key (Store mapSDK region bucket key body w).world).exit =
      .returned (body, none) ∧
    (∀ body2 : Bytes,
      (Store mapSDK region bucket key body2
        (Read mapSDK region bucket key (Store mapSDK region bucket key body w).world).world).exit =
          .returned none →
      (Store mapSDK region bucket key body2
        (Read mapSDK region bucket key
          (Store mapSDK region bucket key body w).world).world).world.nextFault = none →
      (Read mapSDK region bucket key
        (Store mapSDK region bucket key body2
          (Read mapSDK region bucket key
            (Store mapSDK region bucket key body w).world).world).world).exit =
        .returned (body2, none)) ∧
    (∀ body2 : Bytes,
      (Store mapSDK region bucket key body2
        (Store mapSDK region bucket key body w).world).exit = .returned none →
      (Store mapSDK region bucket key body2
        (Store mapSDK region bucket key body w).world).world.nextFault = none →
      (Read mapSDK region bucket key
        (Store mapSDK region bucket key body2
          (Store mapSDK region bucket key body w).world).world).exit =
        .returned (body2, none)) := by
  have hround : ∀ (b : Bytes) (u : Remote),
      (Store mapSDK region bucket key b u).exit = .returned none →
      (Store mapSDK region bucket key b u).world.nextFault = none →
      (Store mapSDK region bucket key b u).world.objects bucket key = some b ∧
      (Read mapSDK region bucket key (Store mapSDK region bucket key b u).world).exit =
        .returned (b, none) := by
    intro b u hs hf
    obtain ⟨hsess, hw⟩ := Store_success_model region bucket key b u hs
    have hobj : (Store mapSDK region bucket key b u).world.objects bucket key = some b := by
      rw [hw]; simp [Remote.set, Remote.consume]
    have hsess2 : (Store mapSDK region bucket key b u).world.sessionFault region = none := by
      rw [hw]; exact hsess
    exact ⟨hobj, Read_present_model region bucket key b _ hsess2 hf hobj⟩
  exact ⟨(hround body w hstore hfault).1, (hround body w hstore hfault).2,
    fun body2 h2 f2 => (hround body2 _ h2 f2).2,
    fun body2 h2 f2 => (hround body2 _ h2 f2).2⟩

/-- C7, at concrete inputs: the empty body, then a second body, under one key; and
a single round trip on a service whose third request fails, where no second
`Store` can succeed. -/
theorem Store_Read_roundtrip_witness :
    ((Read mapSDK "eu-north-1" "b" "k"
        (Store mapSDK "eu-north-1" "b" "k" [] sampleRemote).world).exit = .returned ([], none) ∧
     (Read mapSDK "eu-north-1" "b" "k"
        (Store mapSDK "eu-north-1" "b" "k" sampleBody2
          (Read mapSDK "eu-north-1" "b" "k"
            (Store mapSDK "eu-north-1" "b" "k" [] sampleRemote).world).world).world).exit =
        .returned (sampleBody2, none) ∧
     (Read mapSDK "eu-north-1" "b" "k"
        (Store mapSDK "eu-north-1" "b" "k" sampleBody2
          (Store mapSDK "eu-north-1" "b" "k" [] sampleRemote).world).world).exit =
        .returned (sampleBody2, none)) ∧
    ((Store mapSDK "eu-north-1" "b" "k" sampleBody2
        (Read mapSDK "eu-north-1" "b" "k"
          (Store mapSDK "eu-north-1" "b" "k" sampleBody sampleRemoteThirdFails).world).world).exit =
        .returned (some sampleError) ∧
     (Read mapSDK "eu-north-1" "b" "k"
        (Store mapSDK "eu-north-1" "b" "k" sampleBody sampleRemoteThirdFails).world).exit =
        .returned (sampleBody, none)) :=
  have h := Store_Read_roundtrip "eu-north-1" "b" "k" [] sampleRemote (by decide) (by decide)
  have h3 := Store_Read_roundtrip "eu-north-1" "b" "k" sampleBody sampleRemoteThirdFails
    (by decide) (by decide)
  ⟨⟨h.2.1, h.2.2.1 sampleBody2 (by decide) (by decide),
    h.2.2.2 sampleBody2 (by decide) (by decide)⟩,
   ⟨by decide, h3.2.1⟩⟩

end S3
